import Mathlib

/-! Shallow embedding of the conversion program in `src/convert.py`: the
dew-point, bearing and haversine formulas and the stateful row iteration of
`dataframe_to_geojson`, modelled over the reals.  Python floating-point
values are modelled by `ℝ`; a Python `ZeroDivisionError` (float division by
zero) or a `math.log` domain error is modelled by `Except.error`. -/

namespace Winsond

noncomputable section

/-- Real model of `math.atan2` (C convention).  Over the reals the
signed-zero cases collapse: `atan2 (+0) x = pi` for `x < 0` becomes the
`y = 0` case of the `0 ≤ y` branch, and `atan2 (+0) (+0) = 0` becomes the
final branch. -/
def atan2 (y x : ℝ) : ℝ :=
  if 0 < x then Real.arctan (y / x)
  else if x < 0 then
    (if 0 ≤ y then Real.arctan (y / x) + Real.pi else Real.arctan (y / x) - Real.pi)
  else if 0 < y then Real.pi / 2
  else if y < 0 then -(Real.pi / 2)
  else 0

/-- Real model of `math.radians`. -/
def radians (x : ℝ) : ℝ := x * Real.pi / 180

/-- Real model of `math.degrees`. -/
def degrees (x : ℝ) : ℝ := x * 180 / Real.pi

/-- Real model of the Python float `%` operator, used with the positive
modulus 360 in `compute_bearing`: `x % m = x - m * floor (x / m)`. -/
def pymod (x m : ℝ) : ℝ := x - m * (⌊x / m⌋ : ℤ)

/-- The function `calculate_dew_point` of `convert.py` (lines 22-45), with
the intermediate variables `A = 17.625`, `B = 243.04`,
`es = 6.112 * exp(A*T/(B+T))` and `e = es * (RH/100)` inlined.  The
`pressure` argument is accepted but unused, exactly as in the source. -/
def calculate_dew_point (pressure temperature relative_humidity : ℝ) : ℝ :=
  243.04 * Real.log
      (6.112 * Real.exp (17.625 * temperature / (243.04 + temperature)) *
        (relative_humidity / 100.0) / 6.112) /
    (17.625 -
      Real.log
        (6.112 * Real.exp (17.625 * temperature / (243.04 + temperature)) *
          (relative_humidity / 100.0) / 6.112))

/-- The function `compute_bearing` of `convert.py` (lines 47-56), with the
radian conversions and the intermediate `y`, `x` and `initial_bearing`
inlined. -/
def compute_bearing (lat1 lon1 lat2 lon2 : ℝ) : ℝ :=
  pymod
    (degrees
        (atan2 (Real.sin (radians lon2 - radians lon1) * Real.cos (radians lat2))
          (Real.cos (radians lat1) * Real.sin (radians lat2) -
            Real.sin (radians lat1) * Real.cos (radians lat2) *
              Real.cos (radians lon2 - radians lon1))) +
      360)
    360

/-- The function `haversine` of `convert.py` (lines 59-74), with the radian
conversions and the intermediates `dlat`, `dlon`, `a`, `c`, `r = 6371000`
inlined. -/
def haversine (lat1 lon1 lat2 lon2 : ℝ) : ℝ :=
  2 * Real.arcsin (Real.sqrt
      (Real.sin ((radians lat2 - radians lat1) / 2) ^ 2 +
        Real.cos (radians lat1) * Real.cos (radians lat2) *
          Real.sin ((radians lon2 - radians lon1) / 2) ^ 2)) * 6371000

/-- One input row of the dataframe, with the columns used by
`dataframe_to_geojson`: `Time`, `Lat/PosX`, `Long/PosY`, `Alt/PosZ`,
`Baro`, `AirT`, `RH`. -/
structure Row where
  time : ℝ
  lat : ℝ
  lon : ℝ
  alt : ℝ
  baro : ℝ
  airT : ℝ
  rh : ℝ

/-- The mutable variables of `dataframe_to_geojson` carried across loop
iterations: `lasttime`, `lastlat`, `lastlon`, `distance`, `bearing`,
`speed`, `dew_point` (lines 78-84). -/
structure State where
  lasttime : ℝ
  lastlat : ℝ
  lastlon : ℝ
  distance : ℝ
  bearing : ℝ
  speed : ℝ
  dew_point : ℝ

/-- One emitted output: the geojson feature built at lines 102-114 of
`convert.py` (geometry plus properties), which also determines the fields
of the tabular output line written at line 117. -/
structure Sample where
  lon : ℝ
  lat : ℝ
  alt : ℝ
  pressure : ℝ
  hum : ℝ
  temp : ℝ
  dew_point : ℝ
  dT : ℝ
  distance : ℝ
  bearing : ℝ
  speed : ℝ

/-- Python runtime errors that the row loop can raise: float division by
zero at line 98 (`distance * 1000/delta` with `delta = 0`), and the
`math.log` domain error in `calculate_dew_point` when the vapor pressure
is not positive (relative humidity `≤ 0`). -/
inductive Err where
  | divisionByZero
  | logDomain

/-- Initial values of the loop variables (lines 78-84 of `convert.py`). -/
def initState : State := ⟨0, 99, 1000, 0, 0, 0, 0⟩

/-- The `delta` computed at lines 90-93 of `convert.py`: Python's
`if lasttime:` is a numeric truthiness test, i.e. `lasttime ≠ 0`. -/
def rowDelta (s : State) (r : Row) : ℝ :=
  if s.lasttime ≠ 0 then r.time - s.lasttime else 0

/-- The feature built at lines 102-114: geometry from the current row,
properties from the current row and the current values of the loop
variables. -/
def mkSample (r : Row) (delta : ℝ) (s : State) : Sample :=
  ⟨r.lon, r.lat, r.alt, r.baro, r.rh, r.airT, s.dew_point, delta, s.distance,
    s.bearing, s.speed⟩

/-- Loop state after a row processed with `lastlat < 90` (lines 94-101):
`distance`, `bearing`, `speed`, `dew_point` freshly computed from the
current row and the previous position, `lasttime`/`lastlat`/`lastlon`
updated to the current row.  Note the source passes the current row as the
first argument pair of `haversine` and `compute_bearing`. -/
def stepStatePrev (s : State) (r : Row) : State :=
  ⟨r.time, r.lat, r.lon,
    haversine r.lat r.lon s.lastlat s.lastlon,
    compute_bearing r.lat r.lon s.lastlat s.lastlon,
    haversine r.lat r.lon s.lastlat s.lastlon * 1000 / rowDelta s r,
    calculate_dew_point r.baro r.airT r.rh⟩

/-- Loop state after a row processed with `lastlat ≥ 90` (the computations
of lines 96-99 are skipped, lines 94/100-101 still update the position and
time). -/
def stepStateNoPrev (s : State) (r : Row) : State :=
  ⟨r.time, r.lat, r.lon, s.distance, s.bearing, s.speed, s.dew_point⟩

/-- One iteration of the row loop of `dataframe_to_geojson`
(lines 86-117).  A row with `lat > 90` is skipped (line 87-88).  Otherwise
`delta` is computed (lines 89-93); if `lastlat < 90` the block at lines
96-99 runs: `distance` and `bearing` are computed, then
`speed = distance * 1000/delta` raises `ZeroDivisionError` when
`delta = 0`, then `calculate_dew_point` raises a `math.log` domain error
when `RH ≤ 0`.  Finally the feature is appended and the output line
written only when `delta` is truthy (lines 115-117). -/
def step (s : State) (r : Row) : Except Err (State × Option Sample) :=
  if r.lat > 90 then Except.ok (s, none)
  else if s.lastlat < 90 then
    if rowDelta s r = 0 then Except.error Err.divisionByZero
    else if r.rh ≤ 0 then Except.error Err.logDomain
    else
      Except.ok (stepStatePrev s r,
        if rowDelta s r ≠ 0 then
          some (mkSample r (rowDelta s r) (stepStatePrev s r))
        else none)
  else
    Except.ok (stepStateNoPrev s r,
      if rowDelta s r ≠ 0 then
        some (mkSample r (rowDelta s r) (stepStateNoPrev s r))
      else none)

/-- The row loop of `dataframe_to_geojson`, folded over the list of rows
from a given state; a Python exception aborts the whole conversion. -/
def runFrom (s : State) : List Row → Except Err (State × List Sample)
  | [] => Except.ok (s, [])
  | r :: rs =>
    match step s r with
    | Except.error e => Except.error e
    | Except.ok (s', o) =>
      match runFrom s' rs with
      | Except.error e => Except.error e
      | Except.ok (sf, l) => Except.ok (sf, o.toList ++ l)

/-- The function `dataframe_to_geojson` of `convert.py` (lines 76-120),
abstracted over file output: the returned list of samples is, in order,
both the list of appended geojson features and the list of tabular data
lines written to the windsond stream. -/
def dataframe_to_geojson (rows : List Row) : Except Err (State × List Sample) :=
  runFrom initState rows

/-- Rows for the C1 failing input: valid latitudes, the last two rows share
the timestamp 5. -/
def c1r0 : Row := ⟨1, 10, 20, 100, 1000, 20, 50⟩
def c1r1 : Row := ⟨5, 10.5, 20.5, 105, 999.5, 19.5, 52⟩
def c1r2 : Row := ⟨5, 11, 21, 110, 999, 19, 55⟩

/-- Rows of the end-to-end example of the spec (claim C2). -/
def c2r1 : Row := ⟨0, 10, 20, 100, 1000, 20, 50⟩
def c2r2 : Row := ⟨10, 10.001, 20.001, 110, 999, 19, 55⟩

/-- Concrete rows for the C3 witness: a first valid row with timestamp 0,
then a row 100 seconds later. -/
def c3a : Row := ⟨0, 10, 20, 100, 1000, 20, 50⟩
def c3b : Row := ⟨100, 11, 21, 110, 999, 19, 55⟩

/-- Rows for the C4 counterexample: a move due north along the prime
meridian, from latitude 0 to latitude 1. -/
def c4r0 : Row := ⟨1, 0, 0, 100, 1000, 20, 50⟩
def c4r1 : Row := ⟨2, 1, 0, 110, 999, 19, 55⟩

/-- Concrete state and row for the C4 witness. -/
def c4ws : State := ⟨1, 0, 0, 0, 0, 0, 0⟩
def c4wr : Row := ⟨2, 1, 0, 100, 1000, 20, 50⟩

/-- Rows for the C5 counterexample: valid latitudes, strictly increasing
timestamps starting at 0. -/
def c5x1 : Row := ⟨0, 10, 20, 100, 1000, 20, 50⟩
def c5x2 : Row := ⟨1, 11, 21, 110, 999, 19, 55⟩
def c5x3 : Row := ⟨2, 12, 22, 120, 998, 18, 60⟩

/-- Rows for the C5 witness: valid latitudes, strictly increasing nonzero
timestamps, positive humidities. -/
def c5w1 : Row := ⟨1, 10, 20, 100, 1000, 20, 50⟩
def c5w2 : Row := ⟨2, 11, 21, 110, 999, 19, 55⟩
def c5w3 : Row := ⟨3, 12, 22, 120, 998, 18, 60⟩

/-- Row for the C6 witness: latitude 91, the invalid-row sentinel range. -/
def c6row : Row := ⟨7, 91, 0, 0, 0, 0, 0⟩

/-- Rows for the C7 counterexample: two valid rows with the same
timestamp 5. -/
def c7A : Row := ⟨5, 10, 20, 100, 1000, 20, 50⟩
def c7B : Row := ⟨5, 11, 21, 110, 999, 19, 55⟩

/-- State and row for the C7 witness: equal timestamps with no previous
valid position, so the step succeeds without emitting. -/
def c7ws : State := ⟨5, 99, 1000, 0, 0, 0, 0⟩
def c7wr : Row := ⟨5, 10, 20, 100, 1000, 20, 50⟩

theorem rowDelta_of_eq_zero (s : State) (r : Row) (h : s.lasttime = 0) :
    rowDelta s r = 0 := by
  simp [rowDelta, h]

theorem rowDelta_of_ne_zero (s : State) (r : Row) (h : s.lasttime ≠ 0) :
    rowDelta s r = r.time - s.lasttime := by
  simp [rowDelta, h]

theorem step_noprev_none (s : State) (r : Row) (h1 : ¬ r.lat > 90)
    (h2 : ¬ s.lastlat < 90) (h3 : rowDelta s r = 0) :
    step s r = Except.ok (stepStateNoPrev s r, none) := by
  unfold step
  rw [if_neg h1, if_neg h2, if_neg (not_not_intro h3)]

theorem step_noprev_some (s : State) (r : Row) (h1 : ¬ r.lat > 90)
    (h2 : ¬ s.lastlat < 90) (h3 : rowDelta s r ≠ 0) :
    step s r =
      Except.ok (stepStateNoPrev s r,
        some (mkSample r (rowDelta s r) (stepStateNoPrev s r))) := by
  unfold step
  rw [if_neg h1, if_neg h2, if_pos h3]

theorem step_prev_divzero (s : State) (r : Row) (h1 : ¬ r.lat > 90)
    (h2 : s.lastlat < 90) (h3 : rowDelta s r = 0) :
    step s r = Except.error Err.divisionByZero := by
  unfold step
  rw [if_neg h1, if_pos h2, if_pos h3]

theorem step_prev_some (s : State) (r : Row) (h1 : ¬ r.lat > 90)
    (h2 : s.lastlat < 90) (h3 : rowDelta s r ≠ 0) (h4 : ¬ r.rh ≤ 0) :
    step s r =
      Except.ok (stepStatePrev s r,
        some (mkSample r (rowDelta s r) (stepStatePrev s r))) := by
  unfold step
  rw [if_neg h1, if_pos h2, if_neg h3, if_neg h4, if_pos h3]

theorem step_emit (s : State) (r : Row) (h1 : ¬ r.lat > 90)
    (h3 : rowDelta s r ≠ 0) (h4 : ¬ r.rh ≤ 0) :
    ∃ s' : State,
      step s r = Except.ok (s', some (mkSample r (rowDelta s r) s')) ∧
        s'.lasttime = r.time ∧ s'.lastlat = r.lat := by
  by_cases h2 : s.lastlat < 90
  · exact ⟨stepStatePrev s r, step_prev_some s r h1 h2 h3 h4, rfl, rfl⟩
  · exact ⟨stepStateNoPrev s r, step_noprev_some s r h1 h2 h3, rfl, rfl⟩

theorem runFrom_nil (s : State) : runFrom s [] = Except.ok (s, []) := rfl

theorem runFrom_cons_err (s : State) (r : Row) (rs : List Row) (e : Err)
    (h : step s r = Except.error e) : runFrom s (r :: rs) = Except.error e := by
  simp only [runFrom, h]

theorem runFrom_cons_ok (s s' : State) (r : Row) (rs : List Row)
    (o : Option Sample) (h : step s r = Except.ok (s', o)) :
    runFrom s (r :: rs) =
      match runFrom s' rs with
      | Except.error e => Except.error e
      | Except.ok (sf, l) => Except.ok (sf, o.toList ++ l) := by
  simp only [runFrom, h]

theorem pymod_bounds (x : ℝ) : 0 ≤ pymod x 360 ∧ pymod x 360 < 360 := by
  have h1 : pymod x 360 = 360 * Int.fract (x / 360) := by
    unfold pymod Int.fract
    ring
  constructor
  · rw [h1]
    exact mul_nonneg (by norm_num) (Int.fract_nonneg _)
  · rw [h1]
    calc 360 * Int.fract (x / 360) < 360 * 1 :=
          mul_lt_mul_of_pos_left (Int.fract_lt_one _) (by norm_num)
    _ = 360 := mul_one 360

theorem pymod_360_self : pymod 360 360 = 0 := by
  unfold pymod
  rw [show ((360 : ℝ)) / 360 = 1 by norm_num, Int.floor_one]
  norm_num

theorem pymod_540 : pymod (180 + 360) 360 = 180 := by
  unfold pymod
  have h : ⌊((180 : ℝ) + 360) / 360⌋ = 1 := by
    rw [Int.floor_eq_iff]
    norm_num
  rw [h]
  norm_num

theorem atan2_zero_zero : atan2 0 0 = 0 := by
  simp [atan2]

theorem atan2_zero_pos (x : ℝ) (hx : 0 < x) : atan2 0 x = 0 := by
  unfold atan2
  rw [if_pos hx, zero_div, Real.arctan_zero]

theorem atan2_zero_neg (x : ℝ) (hx : x < 0) : atan2 0 x = Real.pi := by
  unfold atan2
  rw [if_neg (not_lt.mpr hx.le), if_pos hx, if_pos le_rfl, zero_div,
    Real.arctan_zero, zero_add]

theorem radians_zero : radians 0 = 0 := by
  simp [radians]

theorem radians_one : radians 1 = Real.pi / 180 := by
  simp [radians]

theorem degrees_zero : degrees 0 = 0 := by
  simp [degrees]

theorem degrees_pi : degrees Real.pi = 180 := by
  unfold degrees
  rw [mul_comm, mul_div_assoc, div_self Real.pi_ne_zero, mul_one]

theorem sin_pi_div_180_pos : 0 < Real.sin (Real.pi / 180) :=
  Real.sin_pos_of_pos_of_lt_pi (by positivity)
    (div_lt_self Real.pi_pos (by norm_num))

theorem cb_north : compute_bearing 0 0 1 0 = 0 := by
  unfold compute_bearing
  rw [sub_self, Real.sin_zero, zero_mul]
  rw [atan2_zero_pos _ (by
    rw [radians_zero, radians_one, Real.sin_zero, Real.cos_zero]
    have := sin_pi_div_180_pos
    nlinarith [sin_pi_div_180_pos])]
  rw [degrees_zero, zero_add]
  exact pymod_360_self

theorem cb_south : compute_bearing 1 0 0 0 = 180 := by
  unfold compute_bearing
  rw [sub_self, Real.sin_zero, zero_mul]
  rw [atan2_zero_neg _ (by
    rw [radians_zero, radians_one, Real.sin_zero, Real.cos_zero]
    nlinarith [sin_pi_div_180_pos])]
  rw [degrees_pi]
  exact pymod_540

/-- C1: on a 3-row input whose rows all have valid latitudes and whose last
two rows share the timestamp 5 (after a first valid row at timestamp 1),
the conversion evaluates `speed = distance * 1000/delta` with `delta = 0`
before the emission guard and raises a division-by-zero error, aborting the
run; the spec's claim that the division is never evaluated is false on the
code. -/
theorem c1_division_by_zero_raised :
    dataframe_to_geojson [c1r0, c1r1, c1r2] = Except.error Err.divisionByZero := by
  have h0 : step initState c1r0 = Except.ok (stepStateNoPrev initState c1r0, none) :=
    step_noprev_none initState c1r0 (show ¬ (10 : ℝ) > 90 by norm_num)
      (show ¬ (99 : ℝ) < 90 by norm_num) (rowDelta_of_eq_zero initState c1r0 rfl)
  have h1 : step (stepStateNoPrev initState c1r0) c1r1 =
      Except.ok (stepStatePrev (stepStateNoPrev initState c1r0) c1r1,
        some (mkSample c1r1 (rowDelta (stepStateNoPrev initState c1r0) c1r1)
          (stepStatePrev (stepStateNoPrev initState c1r0) c1r1))) :=
    step_prev_some (stepStateNoPrev initState c1r0) c1r1
      (show ¬ (10.5 : ℝ) > 90 by norm_num) (show (10 : ℝ) < 90 by norm_num)
      (by
        rw [rowDelta_of_ne_zero (stepStateNoPrev initState c1r0) c1r1
          (show (1 : ℝ) ≠ 0 by norm_num)]
        exact (show (5 : ℝ) - 1 ≠ 0 by norm_num))
      (show ¬ (52 : ℝ) ≤ 0 by norm_num)
  have h2 : step (stepStatePrev (stepStateNoPrev initState c1r0) c1r1) c1r2 =
      Except.error Err.divisionByZero :=
    step_prev_divzero (stepStatePrev (stepStateNoPrev initState c1r0) c1r1) c1r2
      (show ¬ (11 : ℝ) > 90 by norm_num) (show (10.5 : ℝ) < 90 by norm_num)
      (by
        rw [rowDelta_of_ne_zero (stepStatePrev (stepStateNoPrev initState c1r0) c1r1)
          c1r2 (show (5 : ℝ) ≠ 0 by norm_num)]
        exact (show (5 : ℝ) - 5 = 0 by norm_num))
  rw [dataframe_to_geojson, runFrom_cons_ok _ _ _ _ _ h0,
    runFrom_cons_ok _ _ _ _ _ h1, runFrom_cons_err _ _ _ _ h2]

/-- C2: on the spec's end-to-end example input, the first row's timestamp 0
coincides with the no-previous-row marker, so the second row's `delta` is
computed as 0 and the speed division raises a division-by-zero error; the
conversion aborts with no data line and no feature, instead of producing
the one data line and one feature the spec claims. -/
theorem c2_example_divzero :
    dataframe_to_geojson [c2r1, c2r2] = Except.error Err.divisionByZero := by
  have h0 : step initState c2r1 = Except.ok (stepStateNoPrev initState c2r1, none) :=
    step_noprev_none initState c2r1 (show ¬ (10 : ℝ) > 90 by norm_num)
      (show ¬ (99 : ℝ) < 90 by norm_num) (rowDelta_of_eq_zero initState c2r1 rfl)
  have h1 : step (stepStateNoPrev initState c2r1) c2r2 =
      Except.error Err.divisionByZero :=
    step_prev_divzero (stepStateNoPrev initState c2r1) c2r2
      (show ¬ (10.001 : ℝ) > 90 by norm_num) (show (10 : ℝ) < 90 by norm_num)
      (rowDelta_of_eq_zero (stepStateNoPrev initState c2r1) c2r2 rfl)
  rw [dataframe_to_geojson, runFrom_cons_ok _ _ _ _ _ h0, runFrom_cons_err _ _ _ _ h1]

/-- C3: after a valid row whose timestamp equals exactly 0 is processed,
the stored last timestamp is 0 — the same value as the no-previous-row
marker — so the `delta` computed for any following row is 0 regardless of
the actual elapsed time. -/
theorem c3_zero_timestamp_marker (s0 : State) (a : Row) (s1 : State)
    (o : Option Sample) (ha : a.lat ≤ 90) (ht : a.time = 0)
    (hs : step s0 a = Except.ok (s1, o)) :
    s1.lasttime = 0 ∧ ∀ b : Row, rowDelta s1 b = 0 := by
  have hlat : ¬ a.lat > 90 := not_lt.mpr ha
  have h1 : s1.lasttime = 0 := by
    unfold step at hs
    rw [if_neg hlat] at hs
    by_cases h2 : s0.lastlat < 90
    · rw [if_pos h2] at hs
      by_cases h3 : rowDelta s0 a = 0
      · rw [if_pos h3] at hs
        exact Except.noConfusion hs
      · rw [if_neg h3] at hs
        by_cases h4 : a.rh ≤ 0
        · rw [if_pos h4] at hs
          exact Except.noConfusion hs
        · rw [if_neg h4] at hs
          simp only [Except.ok.injEq, Prod.mk.injEq] at hs
          rw [← hs.1]
          exact ht
    · rw [if_neg h2] at hs
      simp only [Except.ok.injEq, Prod.mk.injEq] at hs
      rw [← hs.1]
      exact ht
  refine ⟨h1, fun b => ?_⟩
  simp [rowDelta, h1]

/-- Witness for C3: processing the valid row `c3a` with timestamp 0 from
the initial state leaves last timestamp 0, and the delta computed for the
row `c3b` arriving 100 seconds later is 0. -/
theorem c3_witness :
    c3a.lat ≤ 90 ∧ c3a.time = 0 ∧
      rowDelta (stepStateNoPrev initState c3a) c3b = 0 := by
  refine ⟨show (10 : ℝ) ≤ 90 by norm_num, rfl, ?_⟩
  exact (c3_zero_timestamp_marker initState c3a (stepStateNoPrev initState c3a) none
    (show (10 : ℝ) ≤ 90 by norm_num) rfl
    (step_noprev_none initState c3a (show ¬ (10 : ℝ) > 90 by norm_num)
      (show ¬ (99 : ℝ) < 90 by norm_num)
      (rowDelta_of_eq_zero initState c3a rfl))).2 c3b

/-- Counterexample to C4 as stated: moving due north from (0,0) to (1,0)
emits a sample whose bearing is 180 (the code passes the current row as the
first argument pair, giving the bearing from current to previous), while
the bearing from the previous to the current position is 0. -/
theorem c4_counterexample :
    (dataframe_to_geojson [c4r0, c4r1]).map (fun p => p.2.map Sample.bearing) =
        Except.ok [(180 : ℝ)] ∧
      compute_bearing c4r0.lat c4r0.lon c4r1.lat c4r1.lon = 0 ∧
      (180 : ℝ) ≠ 0 := by
  refine ⟨?_, ?_, by norm_num⟩
  · have h0 : step initState c4r0 = Except.ok (stepStateNoPrev initState c4r0, none) :=
      step_noprev_none initState c4r0 (show ¬ (0 : ℝ) > 90 by norm_num)
        (show ¬ (99 : ℝ) < 90 by norm_num) (rowDelta_of_eq_zero initState c4r0 rfl)
    have h1 : step (stepStateNoPrev initState c4r0) c4r1 =
        Except.ok (stepStatePrev (stepStateNoPrev initState c4r0) c4r1,
          some (mkSample c4r1 (rowDelta (stepStateNoPrev initState c4r0) c4r1)
            (stepStatePrev (stepStateNoPrev initState c4r0) c4r1))) :=
      step_prev_some (stepStateNoPrev initState c4r0) c4r1
        (show ¬ (1 : ℝ) > 90 by norm_num) (show (0 : ℝ) < 90 by norm_num)
        (by
          rw [rowDelta_of_ne_zero (stepStateNoPrev initState c4r0) c4r1
            (show (1 : ℝ) ≠ 0 by norm_num)]
          exact (show (2 : ℝ) - 1 ≠ 0 by norm_num))
        (show ¬ (55 : ℝ) ≤ 0 by norm_num)
    calc (dataframe_to_geojson [c4r0, c4r1]).map (fun p => p.2.map Sample.bearing)
        = Except.ok [compute_bearing 1 0 0 0] := by
          rw [dataframe_to_geojson, runFrom_cons_ok _ _ _ _ _ h0,
            runFrom_cons_ok _ _ _ _ _ h1, runFrom_nil]
          rfl
      _ = Except.ok [(180 : ℝ)] := by rw [cb_south]
  · show compute_bearing 0 0 1 0 = 0
    exact cb_north

/-- C4 (amended): when a previous valid position exists
(`lastlat < 90`) and a step emits a sample, the emitted bearing equals
`compute_bearing` applied with the CURRENT row's position as the first
argument pair and the previous position as the second — the forward
azimuth from the current to the previous point, not the other way
around. -/
theorem c4_amended (s : State) (r : Row) (s' : State) (smp : Sample)
    (hprev : s.lastlat < 90) (hs : step s r = Except.ok (s', some smp)) :
    smp.bearing = compute_bearing r.lat r.lon s.lastlat s.lastlon := by
  unfold step at hs
  by_cases hlat : r.lat > 90
  · rw [if_pos hlat] at hs
    simp only [Except.ok.injEq, Prod.mk.injEq] at hs
    exact Option.noConfusion hs.2
  · rw [if_neg hlat, if_pos hprev] at hs
    by_cases h3 : rowDelta s r = 0
    · rw [if_pos h3] at hs
      exact Except.noConfusion hs
    · rw [if_neg h3] at hs
      by_cases h4 : r.rh ≤ 0
      · rw [if_pos h4] at hs
        exact Except.noConfusion hs
      · rw [if_neg h4, if_pos h3] at hs
        simp only [Except.ok.injEq, Prod.mk.injEq, Option.some.injEq] at hs
        rw [← hs.2]
        rfl

/-- Witness for C4 (amended) at a concrete state with previous position
(0,0) and a row at (1,0). -/
theorem c4_witness :
    c4ws.lastlat < 90 ∧
      (mkSample c4wr (rowDelta c4ws c4wr) (stepStatePrev c4ws c4wr)).bearing =
        compute_bearing c4wr.lat c4wr.lon c4ws.lastlat c4ws.lastlon := by
  refine ⟨show (0 : ℝ) < 90 by norm_num, ?_⟩
  exact c4_amended c4ws c4wr (stepStatePrev c4ws c4wr)
    (mkSample c4wr (rowDelta c4ws c4wr) (stepStatePrev c4ws c4wr))
    (show (0 : ℝ) < 90 by norm_num)
    (step_prev_some c4ws c4wr (show ¬ (1 : ℝ) > 90 by norm_num)
      (show (0 : ℝ) < 90 by norm_num)
      (by
        rw [rowDelta_of_ne_zero c4ws c4wr (show (1 : ℝ) ≠ 0 by norm_num)]
        exact (show (2 : ℝ) - 1 ≠ 0 by norm_num))
      (show ¬ (50 : ℝ) ≤ 0 by norm_num))

/-- Counterexample to C5 as stated: a 3-row input with valid latitudes and
strictly increasing timestamps starting at 0 makes the second row's delta 0
(timestamp 0 is the no-previous-row marker), so the speed division raises
a division-by-zero error and no samples at all are emitted instead of
exactly 2. -/
theorem c5_counterexample :
    c5x1.lat ≤ 90 ∧ c5x2.lat ≤ 90 ∧ c5x3.lat ≤ 90 ∧
      c5x1.time < c5x2.time ∧ c5x2.time < c5x3.time ∧
      dataframe_to_geojson [c5x1, c5x2, c5x3] = Except.error Err.divisionByZero := by
  refine ⟨show (10 : ℝ) ≤ 90 by norm_num, show (11 : ℝ) ≤ 90 by norm_num,
    show (12 : ℝ) ≤ 90 by norm_num, show (0 : ℝ) < 1 by norm_num,
    show (1 : ℝ) < 2 by norm_num, ?_⟩
  have h0 : step initState c5x1 = Except.ok (stepStateNoPrev initState c5x1, none) :=
    step_noprev_none initState c5x1 (show ¬ (10 : ℝ) > 90 by norm_num)
      (show ¬ (99 : ℝ) < 90 by norm_num) (rowDelta_of_eq_zero initState c5x1 rfl)
  have h1 : step (stepStateNoPrev initState c5x1) c5x2 =
      Except.error Err.divisionByZero :=
    step_prev_divzero (stepStateNoPrev initState c5x1) c5x2
      (show ¬ (11 : ℝ) > 90 by norm_num) (show (10 : ℝ) < 90 by norm_num)
      (rowDelta_of_eq_zero (stepStateNoPrev initState c5x1) c5x2 rfl)
  rw [dataframe_to_geojson, runFrom_cons_ok _ _ _ _ _ h0, runFrom_cons_err _ _ _ _ h1]

/-- C5 (amended): for every 3-row input with valid latitudes, strictly
increasing timestamps, the first two timestamps nonzero, and positive
relative humidity in the last two rows, exactly 2 samples are emitted —
one for the second row and one for the third — and the first valid row
never emits. -/
theorem c5_amended (r1 r2 r3 : Row)
    (h1 : r1.lat ≤ 90) (h2 : r2.lat ≤ 90) (h3 : r3.lat ≤ 90)
    (h12 : r1.time < r2.time) (h23 : r2.time < r3.time)
    (ht1 : r1.time ≠ 0) (ht2 : r2.time ≠ 0)
    (hr2 : 0 < r2.rh) (hr3 : 0 < r3.rh) :
    (dataframe_to_geojson [r1, r2, r3]).map (fun p => p.2.map Sample.lat) =
      Except.ok [r2.lat, r3.lat] := by
  have h0 : step initState r1 = Except.ok (stepStateNoPrev initState r1, none) :=
    step_noprev_none initState r1 (not_lt.mpr h1)
      (show ¬ (99 : ℝ) < 90 by norm_num) (rowDelta_of_eq_zero initState r1 rfl)
  have hd2 : rowDelta (stepStateNoPrev initState r1) r2 ≠ 0 := by
    rw [rowDelta_of_ne_zero (stepStateNoPrev initState r1) r2 ht1]
    exact sub_ne_zero_of_ne h12.ne'
  obtain ⟨s2, hstep2, hs2t, hs2lat⟩ := step_emit (stepStateNoPrev initState r1) r2
    (not_lt.mpr h2) hd2 (not_le.mpr hr2)
  have hd3 : rowDelta s2 r3 ≠ 0 := by
    rw [rowDelta_of_ne_zero s2 r3 (by rw [hs2t]; exact ht2), hs2t]
    exact sub_ne_zero_of_ne h23.ne'
  obtain ⟨s3, hstep3, hs3t, hs3lat⟩ := step_emit s2 r3 (not_lt.mpr h3) hd3
    (not_le.mpr hr3)
  rw [dataframe_to_geojson, runFrom_cons_ok _ _ _ _ _ h0,
    runFrom_cons_ok _ _ _ _ _ hstep2, runFrom_cons_ok _ _ _ _ _ hstep3, runFrom_nil]
  rfl

/-- Witness for C5 (amended) on three concrete rows with timestamps 1, 2,
3 and latitudes 10, 11, 12. -/
theorem c5_witness :
    (dataframe_to_geojson [c5w1, c5w2, c5w3]).map (fun p => p.2.map Sample.lat) =
      Except.ok [(11 : ℝ), (12 : ℝ)] :=
  c5_amended c5w1 c5w2 c5w3 (show (10 : ℝ) ≤ 90 by norm_num)
    (show (11 : ℝ) ≤ 90 by norm_num) (show (12 : ℝ) ≤ 90 by norm_num)
    (show (1 : ℝ) < 2 by norm_num) (show (2 : ℝ) < 3 by norm_num)
    (show (1 : ℝ) ≠ 0 by norm_num) (show (2 : ℝ) ≠ 0 by norm_num)
    (show (0 : ℝ) < 55 by norm_num) (show (0 : ℝ) < 60 by norm_num)

/-- C6: a row whose latitude exceeds 90 degrees produces no output and
leaves the entire loop state — last timestamp, last position and the
carried distance/bearing/speed/dew-point values — unchanged. -/
theorem c6_invalid_row_skipped (s : State) (r : Row) (h : r.lat > 90) :
    step s r = Except.ok (s, none) := by
  unfold step
  rw [if_pos h]

/-- Witness for C6 at the concrete row with latitude 91. -/
theorem c6_witness :
    c6row.lat > 90 ∧ step initState c6row = Except.ok (initState, none) :=
  ⟨show (91 : ℝ) > 90 by norm_num,
    c6_invalid_row_skipped initState c6row (show (91 : ℝ) > 90 by norm_num)⟩

/-- Counterexample to C7 as stated: after the valid row `c7A` at
timestamp 5, the valid row `c7B` with the same timestamp does not get its
values stored — the step raises a division-by-zero error before the
position update, so no updated state exists at all. -/
theorem c7_counterexample :
    c7B.lat ≤ 90 ∧
      dataframe_to_geojson [c7A] =
        Except.ok (stepStateNoPrev initState c7A, []) ∧
      step (stepStateNoPrev initState c7A) c7B = Except.error Err.divisionByZero := by
  refine ⟨show (11 : ℝ) ≤ 90 by norm_num, ?_, ?_⟩
  · rw [dataframe_to_geojson,
      runFrom_cons_ok _ _ _ _ _ (step_noprev_none initState c7A
        (show ¬ (10 : ℝ) > 90 by norm_num) (show ¬ (99 : ℝ) < 90 by norm_num)
        (rowDelta_of_eq_zero initState c7A rfl)),
      runFrom_nil]
    rfl
  · exact step_prev_divzero (stepStateNoPrev initState c7A) c7B
      (show ¬ (11 : ℝ) > 90 by norm_num) (show (10 : ℝ) < 90 by norm_num)
      (by
        rw [rowDelta_of_ne_zero (stepStateNoPrev initState c7A) c7B
          (show (5 : ℝ) ≠ 0 by norm_num)]
        exact (show (5 : ℝ) - 5 = 0 by norm_num))

/-- C7 (amended): for every row with latitude at most 90 on which the step
completes without raising, the loop state's last timestamp, last latitude
and last longitude are updated to that row's values — in particular also
when the row emits no output. -/
theorem c7_amended (s : State) (r : Row) (s' : State) (o : Option Sample)
    (ha : r.lat ≤ 90) (hs : step s r = Except.ok (s', o)) :
    s'.lasttime = r.time ∧ s'.lastlat = r.lat ∧ s'.lastlon = r.lon := by
  have hlat : ¬ r.lat > 90 := not_lt.mpr ha
  unfold step at hs
  rw [if_neg hlat] at hs
  by_cases h2 : s.lastlat < 90
  · rw [if_pos h2] at hs
    by_cases h3 : rowDelta s r = 0
    · rw [if_pos h3] at hs
      exact Except.noConfusion hs
    · rw [if_neg h3] at hs
      by_cases h4 : r.rh ≤ 0
      · rw [if_pos h4] at hs
        exact Except.noConfusion hs
      · rw [if_neg h4] at hs
        simp only [Except.ok.injEq, Prod.mk.injEq] at hs
        rw [← hs.1]
        exact ⟨rfl, rfl, rfl⟩
  · rw [if_neg h2] at hs
    simp only [Except.ok.injEq, Prod.mk.injEq] at hs
    rw [← hs.1]
    exact ⟨rfl, rfl, rfl⟩

/-- Witness for C7 (amended): a row with a timestamp equal to the stored
last timestamp (so no emission) from a state with no previous valid
position still gets its time and position stored. -/
theorem c7_witness :
    c7wr.lat ≤ 90 ∧
      (stepStateNoPrev c7ws c7wr).lasttime = c7wr.time ∧
      (stepStateNoPrev c7ws c7wr).lastlat = c7wr.lat ∧
      (stepStateNoPrev c7ws c7wr).lastlon = c7wr.lon := by
  refine ⟨show (10 : ℝ) ≤ 90 by norm_num, ?_⟩
  exact c7_amended c7ws c7wr (stepStateNoPrev c7ws c7wr) none
    (show (10 : ℝ) ≤ 90 by norm_num)
    (step_noprev_none c7ws c7wr (show ¬ (10 : ℝ) > 90 by norm_num)
      (show ¬ (99 : ℝ) < 90 by norm_num)
      (by
        rw [rowDelta_of_ne_zero c7ws c7wr (show (5 : ℝ) ≠ 0 by norm_num)]
        exact (show (5 : ℝ) - 5 = 0 by norm_num)))

/-- C8: for every temperature with `243.04 + T > 0`, the dew point at 100%
relative humidity equals the air temperature exactly (over the reals), for
any pressure, since the actual vapor pressure equals the saturation vapor
pressure. -/
theorem c8_dew_point_rh100 (pressure T : ℝ) (h : 0 < 243.04 + T) :
    calculate_dew_point pressure T 100 = T := by
  have hBT : (243.04 : ℝ) + T ≠ 0 := ne_of_gt h
  unfold calculate_dew_point
  have he : (6.112 : ℝ) * Real.exp (17.625 * T / (243.04 + T)) *
      ((100 : ℝ) / 100.0) / 6.112 = Real.exp (17.625 * T / (243.04 + T)) := by
    rw [show ((100 : ℝ) / 100.0) = 1 by norm_num, mul_one, mul_comm,
      mul_div_assoc, div_self (by norm_num : (6.112 : ℝ) ≠ 0), mul_one]
  rw [he, Real.log_exp]
  have hD : (17.625 : ℝ) - 17.625 * T / (243.04 + T) =
      17.625 * 243.04 / (243.04 + T) := by
    field_simp
    ring
  have hDpos : (0 : ℝ) < 17.625 * 243.04 / (243.04 + T) :=
    div_pos (by norm_num) h
  rw [hD, div_eq_iff (ne_of_gt hDpos)]
  field_simp
  ring

/-- Witness for C8 at the concrete temperature 20 degrees and pressure
1000 hPa. -/
theorem c8_witness : (0 : ℝ) < 243.04 + 20 ∧ calculate_dew_point 1000 20 100 = 20 :=
  ⟨by norm_num, c8_dew_point_rh100 1000 20 (by norm_num)⟩

/-- C9: for every valid latitude/longitude pair, the distance and the
bearing from a point to itself are both 0: identical points are a defined
edge case of `haversine` and `compute_bearing`, not an error. -/
theorem c9_degenerate (lat lon : ℝ) (h1 : -90 ≤ lat) (h2 : lat ≤ 90)
    (h3 : -180 ≤ lon) (h4 : lon ≤ 180) :
    haversine lat lon lat lon = 0 ∧ compute_bearing lat lon lat lon = 0 := by
  constructor
  · simp [haversine]
  · unfold compute_bearing
    rw [sub_self, Real.sin_zero, Real.cos_zero, zero_mul, mul_one]
    rw [show Real.cos (radians lat) * Real.sin (radians lat) -
        Real.sin (radians lat) * Real.cos (radians lat) = 0 by ring]
    rw [atan2_zero_zero, degrees_zero, zero_add]
    exact pymod_360_self

/-- Witness for C9 at the concrete point (10, 20). -/
theorem c9_witness : haversine 10 20 10 20 = 0 ∧ compute_bearing 10 20 10 20 = 0 :=
  c9_degenerate 10 20 (by norm_num) (by norm_num) (by norm_num) (by norm_num)

/-- C10: for every pair of valid input points, the bearing returned by
`compute_bearing` is at least 0 and strictly less than 360. -/
theorem c10_bearing_range (lat1 lon1 lat2 lon2 : ℝ)
    (hv1 : -90 ≤ lat1) (hv2 : lat1 ≤ 90) (hv3 : -90 ≤ lat2) (hv4 : lat2 ≤ 90)
    (hv5 : -180 ≤ lon1) (hv6 : lon1 ≤ 180) (hv7 : -180 ≤ lon2)
    (hv8 : lon2 ≤ 180) :
    0 ≤ compute_bearing lat1 lon1 lat2 lon2 ∧
      compute_bearing lat1 lon1 lat2 lon2 < 360 := by
  unfold compute_bearing
  exact pymod_bounds _

/-- Witness for C10 at the concrete pair (10, 20) to (30, 40). -/
theorem c10_witness :
    0 ≤ compute_bearing 10 20 30 40 ∧ compute_bearing 10 20 30 40 < 360 :=
  c10_bearing_range 10 20 30 40 (by norm_num) (by norm_num) (by norm_num)
    (by norm_num) (by norm_num) (by norm_num) (by norm_num) (by norm_num)

end

end Winsond
